/-
  Verification of the GenXvids video-generation core.

  Shallow embedding of:
  - `apps/backend/app/utils/template_customizer.py` (customization engine)
  - `apps/backend/app/utils/simple_video_generator.py` (frame compositor and
    encoder orchestrator)

  Python dicts with optional keys are embedded as structures with `Option`
  fields (`some` means the key is present).  Python numbers (floats/ints)
  are embedded as `ℚ`; property-bag values as the inductive `PVal`.
  Association lists model Python dicts whose keys are assumed unique
  (a real dict cannot hold a duplicate key).
-/
import Mathlib

namespace GenXvids

/-- A value stored in an open property bag (`properties` dict entry).
`num` covers Python `int`/`float` (the `isinstance(v, (int, float))`
checks in the source succeed exactly on `num`). -/
inductive PVal where
  | num (q : ℚ)
  | str (s : String)
deriving DecidableEq, Repr

/-- An animation entry.  The customizer never inspects an animation's
contents (it only wholesale-replaces or truncates animation lists), so the
payload is kept as an opaque association list of property values. -/
structure Animation where
  fields : List (String × PVal)
deriving DecidableEq, Repr

/-- A transition entry; contents never inspected by the customizer. -/
structure Transition where
  fields : List (String × PVal)
deriving DecidableEq, Repr

/-- The `position` dict of an element: keys `x`/`y` may be absent. -/
structure Pos where
  x : Option PVal
  y : Option PVal
deriving DecidableEq, Repr

/-- The `size` dict of an element: keys `width`/`height` may be absent. -/
structure Size where
  width : Option PVal
  height : Option PVal
deriving DecidableEq, Repr

/-- An element dict of a scene (`scene["elements"][i]`). -/
structure Element where
  id : Option String
  type : Option String
  properties : Option (List (String × PVal))
  position : Option Pos
  size : Option Size
  animations : Option (List Animation)
deriving DecidableEq, Repr

/-- A scene dict of a template configuration. -/
structure Scene where
  id : Option String
  type : Option String
  duration : Option ℚ
  elements : Option (List Element)
  transitions : Option (List Transition)
deriving DecidableEq, Repr

/-- A template configuration dict (`template_config`). -/
structure Config where
  duration : Option ℚ
  aspect_ratio : Option String
  default_style : Option String
  customizable_elements : Option (List String)
  scenes : Option (List Scene)
deriving DecidableEq, Repr

/-- A per-element customization dict (one value of `customizations["elements"]`). -/
structure ElementCust where
  properties : Option (List (String × PVal))
  position : Option Pos
  size : Option Size
  animations : Option (List Animation)
deriving DecidableEq, Repr

/-- A per-scene customization dict (one value of `customizations["scenes"]`). -/
structure SceneCust where
  duration : Option ℚ
  type : Option String
  transitions : Option (List Transition)
deriving DecidableEq, Repr

/-- The full customization request dict. -/
structure Customization where
  duration : Option ℚ
  aspect_ratio : Option String
  default_style : Option String
  elements : Option (List (String × ElementCust))
  scenes : Option (List (String × SceneCust))
deriving DecidableEq, Repr

/-- Python `base.update(upd)` on dicts modelled as association lists with
unique keys: existing keys keep their position but take the new value,
keys new in `upd` are appended in `upd` order. -/
def dictUpdate (base upd : List (String × PVal)) : List (String × PVal) :=
  (base.map fun kv =>
    match upd.lookup kv.1 with
    | some v => (kv.1, v)
    | none => kv)
  ++ upd.filter (fun kv => (base.lookup kv.1).isNone)

/-- `TemplateCustomizer._adjust_scene_durations`: rescale every scene's
duration so the total matches `new_total_duration`; no-op when the
`scenes` key is missing, the list is empty, or the current total is ≤ 0. -/
def adjust_scene_durations (config : Config) (new_total_duration : ℚ) : Config :=
  match config.scenes with
  | none => config
  | some scenes =>
    if scenes.isEmpty then config
    else
      let current_total := (scenes.map fun s => s.duration.getD 0).sum
      if current_total ≤ 0 then config
      else
        let scale_factor := new_total_duration / current_total
        { config with scenes := some (scenes.map fun s =>
            match s.duration with
            | some d => { s with duration := some (d * scale_factor) }
            | none => s) }

/-- `TemplateCustomizer._apply_element_customization`: shallow-merge
`properties`; wholesale-replace `position`/`size`/`animations`. -/
def apply_element_customization (e : Element) (c : ElementCust) : Element :=
  let e := match c.properties with
    | none => e
    | some ps => { e with properties := some (dictUpdate (e.properties.getD []) ps) }
  let e := match c.position with
    | none => e
    | some p => { e with position := some p }
  let e := match c.size with
    | none => e
    | some s => { e with size := some s }
  match c.animations with
  | none => e
  | some a => { e with animations := some a }

/-- `TemplateCustomizer._customize_elements`: for every element of every
scene whose id is a key of the customization map, apply the customization. -/
def customize_elements (config : Config) (ecs : List (String × ElementCust)) : Config :=
  match config.scenes with
  | none => config
  | some scenes =>
    { config with scenes := some (scenes.map fun sc =>
        match sc.elements with
        | none => sc
        | some es =>
          { sc with elements := some (es.map fun e =>
              match e.id with
              | none => e
              | some eid =>
                match ecs.lookup eid with
                | none => e
                | some c => apply_element_customization e c) }) }

/-- The body of `_customize_scenes` for one matched scene: replace
duration, type and transitions directly when supplied. -/
def apply_scene_customization (sc : Scene) (c : SceneCust) : Scene :=
  let sc := match c.duration with
    | none => sc
    | some d => { sc with duration := some d }
  let sc := match c.type with
    | none => sc
    | some t => { sc with type := some t }
  match c.transitions with
  | none => sc
  | some ts => { sc with transitions := some ts }

/-- `TemplateCustomizer._customize_scenes`: replace duration/type/transitions
directly on every scene whose id is a key of the customization map. -/
def customize_scenes (config : Config) (scs : List (String × SceneCust)) : Config :=
  match config.scenes with
  | none => config
  | some scenes =>
    { config with scenes := some (scenes.map fun sc =>
        match sc.id with
        | none => sc
        | some sid =>
          match scs.lookup sid with
          | none => sc
          | some c => apply_scene_customization sc c) }

/-- The `"duration" in customizations` branch of `customize_template`:
record the new total and rescale scene durations proportionally. -/
def apply_global_duration (cust : Customization) (cfg : Config) : Config :=
  match cust.duration with
  | none => cfg
  | some d => adjust_scene_durations { cfg with duration := some d } d

/-- The `"aspect_ratio" in customizations` branch of `customize_template`. -/
def apply_global_aspect (cust : Customization) (cfg : Config) : Config :=
  match cust.aspect_ratio with
  | none => cfg
  | some a => { cfg with aspect_ratio := some a }

/-- The `"default_style" in customizations` branch of `customize_template`. -/
def apply_global_style (cust : Customization) (cfg : Config) : Config :=
  match cust.default_style with
  | none => cfg
  | some s => { cfg with default_style := some s }

/-- The `"elements" in customizations` branch of `customize_template`. -/
def apply_elements (cust : Customization) (cfg : Config) : Config :=
  match cust.elements with
  | none => cfg
  | some ecs => customize_elements cfg ecs

/-- The `"scenes" in customizations` branch of `customize_template`. -/
def apply_scenes (cust : Customization) (cfg : Config) : Config :=
  match cust.scenes with
  | none => cfg
  | some scs => customize_scenes cfg scs

/-- `TemplateCustomizer.customize_template`: deep-copy (a no-op on pure
values), then apply the global duration, aspect ratio, default style,
element overrides and scene overrides, in the source's order. -/
def customize_template (template_config : Config) (cust : Customization) : Config :=
  apply_scenes cust
    (apply_elements cust
      (apply_global_style cust
        (apply_global_aspect cust
          (apply_global_duration cust template_config))))

/-- Result of `TemplateCustomizer.validate_customizations`. -/
structure ValidationResult where
  is_valid : Bool
  errors : List String
  warnings : List String
deriving DecidableEq, Repr

/-- The repeated check `not isinstance(v, (int, float)) or v < lo or v > hi`
from `_validate_element_customization`: true exactly when the value is not
a number or lies outside `[lo, hi]`. -/
def numOutside (v : PVal) (lo hi : ℚ) : Bool :=
  match v with
  | PVal.num q => q < lo || q > hi
  | PVal.str _ => true

/-- The type-specific property checks of
`_validate_element_customization`: `fontSize ∈ [8, 200]` for text
elements, `opacity ∈ [0, 1]` for image elements. -/
def property_bound_errors (e : Element) (c : ElementCust) : List String :=
  match c.properties with
  | none => []
  | some props =>
    if e.type = some "text" then
      match props.lookup "fontSize" with
      | none => []
      | some v => if numOutside v 8 200 then ["Font size must be between 8 and 200"] else []
    else if e.type = some "image" then
      match props.lookup "opacity" with
      | none => []
      | some v => if numOutside v 0 1 then ["Opacity must be between 0 and 1"] else []
    else []

/-- The position checks of `_validate_element_customization`:
supplied x/y must lie in `[0, 100]`. -/
def position_bound_errors (c : ElementCust) : List String :=
  match c.position with
  | none => []
  | some p =>
    (match p.x with
     | none => []
     | some v => if numOutside v 0 100 then ["Position x must be between 0 and 100"] else [])
    ++
    (match p.y with
     | none => []
     | some v => if numOutside v 0 100 then ["Position y must be between 0 and 100"] else [])

/-- The size checks of `_validate_element_customization`:
supplied width/height must lie in `[1, 100]` (`value < 1 or value > 100`
is rejected). -/
def size_bound_errors (c : ElementCust) : List String :=
  match c.size with
  | none => []
  | some s =>
    (match s.width with
     | none => []
     | some v => if numOutside v 1 100 then ["Size width must be between 1 and 100"] else [])
    ++
    (match s.height with
     | none => []
     | some v => if numOutside v 1 100 then ["Size height must be between 1 and 100"] else [])

/-- `TemplateCustomizer._validate_element_customization`: bounds checks on
the type-specific properties, then position, then size, errors in source
order. -/
def validate_element_customization (e : Element) (c : ElementCust) : List String :=
  property_bound_errors e c ++ position_bound_errors c ++ size_bound_errors c

/-- `TemplateCustomizer._find_element_by_id`: first element with the given
id, scanning scenes in order and elements in order within each scene. -/
def find_element_by_id (template_config : Config) (element_id : String) : Option Element :=
  match template_config.scenes with
  | none => none
  | some scenes =>
    scenes.findSome? fun sc =>
      match sc.elements with
      | none => none
      | some es => es.find? (fun e => e.id = some element_id)

/-- The error message `f"Element \x27{element_id}\x27 not found in template"`. -/
def elemNotFoundMsg (element_id : String) : String :=
  "Element \x27" ++ element_id ++ "\x27 not found in template"

/-- The warning `f"Element \x27{element_id}\x27 is not marked as customizable"`. -/
def elemNotCustomizableMsg (element_id : String) : String :=
  "Element \x27" ++ element_id ++ "\x27 is not marked as customizable"

/-- The per-element loop of `validate_customizations`: returns the
accumulated `(errors, warnings)` in source order.  An element id missing
from the template adds a not-found error and skips the per-element bounds
validation (`continue`). -/
def validateElementsLoop (template_config : Config) (customizable_ids : List String) :
    List (String × ElementCust) → List String × List String
  | [] => ([], [])
  | (eid, ec) :: rest =>
    let w := if customizable_ids.contains eid then [] else [elemNotCustomizableMsg eid]
    match find_element_by_id template_config eid with
    | none =>
      let (es, ws) := validateElementsLoop template_config customizable_ids rest
      (elemNotFoundMsg eid :: es, w ++ ws)
    | some e =>
      let (es, ws) := validateElementsLoop template_config customizable_ids rest
      (validate_element_customization e ec ++ es, w ++ ws)

/-- The list of accepted aspect ratios (`valid_ratios` in the source). -/
def validRatios : List String := ["16:9", "9:16", "1:1", "21:9"]

/-- The error `f"Invalid aspect ratio. Must be one of: {valid_ratios}"`
(with the Python list repr of `valid_ratios` interpolated). -/
def invalidRatioMsg : String :=
  "Invalid aspect ratio. Must be one of: [\x2716:9\x27, \x279:16\x27, \x271:1\x27, \x2721:9\x27]"

/-- `TemplateCustomizer.validate_customizations`: element errors/warnings,
then the global duration check, then the aspect-ratio check.  The
customization's `duration`, being embedded as `ℚ`, always passes the
`isinstance` test, so only positivity is checked. -/
def validate_customizations (template_config : Config) (cust : Customization) :
    ValidationResult :=
  let customizable_ids := template_config.customizable_elements.getD []
  let ew :=
    match cust.elements with
    | none => (([] : List String), ([] : List String))
    | some ecs => validateElementsLoop template_config customizable_ids ecs
  let durErrs :=
    match cust.duration with
    | none => []
    | some d => if d ≤ 0 then ["Duration must be a positive number"] else []
  let ratioErrs :=
    match cust.aspect_ratio with
    | none => []
    | some a => if validRatios.contains a then [] else [invalidRatioMsg]
  let errors := ew.1 ++ durErrs ++ ratioErrs
  { is_valid := errors.isEmpty, errors := errors, warnings := ew.2 }

/-- Hypothesis-forming predicate for C7: the element id of an entry of the
`elements` customization map is found in the template, and its bounds
validation produces no errors. -/
def foundAndClean (t : Config) (p : String × ElementCust) : Bool :=
  match find_element_by_id t p.1 with
  | none => false
  | some e => (validate_element_customization e p.2).isEmpty

/-- The animation-truncation pass of `generate_preview_config`: keep only
the first animation (`element["animations"][:1]`) of every element. -/
def truncate_animations (config : Config) : Config :=
  match config.scenes with
  | none => config
  | some scenes =>
    { config with scenes := some (scenes.map fun sc =>
        match sc.elements with
        | none => sc
        | some es =>
          { sc with elements := some (es.map fun e =>
              match e.animations with
              | none => e
              | some a => { e with animations := some (a.take 1) }) }) }

/-- `TemplateCustomizer.generate_preview_config`: customize, cap the total
duration at 10 seconds (checking the config's `duration` field), then
truncate every element's animations to at most the first entry. -/
def generate_preview_config (template_config : Config) (cust : Customization) : Config :=
  let preview := customize_template template_config cust
  let preview :=
    if preview.duration.getD 0 > 10 then
      adjust_scene_durations { preview with duration := some 10 } 10
    else preview
  truncate_animations preview

/-! ## Frame compositor and encoder orchestrator
(`apps/backend/app/utils/simple_video_generator.py`) -/

/-- A resolution entry of the `_get_resolution` table. -/
structure Resolution where
  width : ℕ
  height : ℕ
deriving DecidableEq, Repr

/-- `SimpleVideoGenerator._get_resolution`: fixed table keyed by aspect
ratio, with `resolutions.get(aspect_ratio, resolutions["16:9"])` as the
fallback for any other key. -/
def get_resolution (aspect_ratio : String) : Resolution :=
  if aspect_ratio = "16:9" then ⟨1280, 720⟩
  else if aspect_ratio = "9:16" then ⟨720, 1280⟩
  else if aspect_ratio = "1:1" then ⟨720, 720⟩
  else if aspect_ratio = "21:9" then ⟨1280, 540⟩
  else ⟨1280, 720⟩

/-- Python `int(q)` on a number: truncation toward zero. -/
def pyInt (q : ℚ) : ℤ :=
  if 0 ≤ q then ⌊q⌋ else -⌊-q⌋

/-- `frame_count = int(duration * fps)` in `_generate_scene_frames`
(`range` of a negative count is empty, hence `.toNat`). -/
def frame_count (duration fps : ℚ) : ℕ :=
  (pyInt (duration * fps)).toNat

/-- `f"\x7blen(frames):06d\x7d"`: decimal, zero-padded to width 6. -/
def pad6 (i : ℕ) : String :=
  let s := toString i
  String.mk (List.replicate (6 - s.length) '0') ++ s

/-- The frame file name `f"frame_\x7blen(frames):06d\x7d.png"`, where
`len(frames)` is the number of frames generated so far *in this scene*
(the per-scene list `frames` starts empty on every call). -/
def framePath (i : ℕ) : String :=
  "frame_" ++ pad6 i ++ ".png"

/-- One generated frame artifact: its file name and pixel dimensions
(`Image.new("RGB", (width, height), ...)`). -/
structure Frame where
  path : String
  width : ℕ
  height : ℕ
deriving DecidableEq, Repr

/-- `SimpleVideoGenerator._generate_scene_frames`: exactly
`int(duration * fps)` frames, indexed by the per-scene counter. -/
def generate_scene_frames (scene : Scene) (res : Resolution) (fps : ℚ) : List Frame :=
  (List.range (frame_count (scene.duration.getD 5) fps)).map fun i =>
    ⟨framePath i, res.width, res.height⟩

/-- The frame-generation loop of `generate_video`: `all_frames` is the
concatenation, in scene order, of each scene's frames; the scene duration
defaults to 5 (`scene.get("duration", 5)`). -/
def all_frames (scenes : List Scene) (cfg_aspect : Option String) (cfg_fps : Option ℚ) :
    List Frame :=
  let res := get_resolution (cfg_aspect.getD "16:9")
  let fps := cfg_fps.getD 30
  scenes.flatMap fun sc => generate_scene_frames sc res fps

/-- `total_duration` accumulated by `generate_video`:
sum of `scene.get("duration", 5)` over the scenes. -/
def total_duration_gen (scenes : List Scene) : ℚ :=
  (scenes.map fun sc => sc.duration.getD 5).sum

/-- Abstracts Python `str()` of a float for the numbers interpolated into
the HTML document (the exact digit string is irrelevant to every property
proved in this file). -/
def pyFloatRepr (q : ℚ) : String := toString q

def htmlHead (res : Resolution) (td : ℚ) (nScenes nFramePaths : ℕ) : String :=
  "\n<!DOCTYPE html>\n<html lang=\"en\">\n<head>\n    <meta charset=\"UTF-8\">\n    <meta name=\"viewport\" content=\"width=device-width, initial-scale=1.0\">\n    <title>GenXvids - Video Preview</title>\n    <style>\n        body \x7b\n            margin: 0;\n            padding: 20px;\n            font-family: \x27Segoe UI\x27, Tahoma, Geneva, Verdana, sans-serif;\n            background: linear-gradient(135deg, #1e3c72 0%, #2a5298 100%);\n            color: #fff;\n            min-height: 100vh;\n        \x7d\n        .container \x7b\n            max-width: 1200px;\n            margin: 0 auto;\n        \x7d\n        .header \x7b\n            text-align: center;\n            margin-bottom: 30px;\n        \x7d\n        .header h1 \x7b\n            font-size: 2.5em;\n            margin-bottom: 10px;\n            text-shadow: 2px 2px 4px rgba(0,0,0,0.3);\n        \x7d\n        .video-container \x7b\n            width: "
  ++ (toString (min res.width 800))
  ++ "px;\n            height: "
  ++ (toString (min res.height 450))
  ++ "px;\n            max-width: 100%;\n            margin: 0 auto 30px;\n            background: #000;\n            position: relative;\n            border-radius: 10px;\n            overflow: hidden;\n            box-shadow: 0 10px 30px rgba(0,0,0,0.3);\n        \x7d\n        .frame \x7b\n            position: absolute;\n            top: 0;\n            left: 0;\n            width: 100%;\n            height: 100%;\n            object-fit: cover;\n            opacity: 0;\n            transition: opacity 0.5s ease-in-out;\n        \x7d\n        .frame.active \x7b\n            opacity: 1;\n        \x7d\n        .controls \x7b\n            text-align: center;\n            margin: 30px 0;\n        \x7d\n        .btn \x7b\n            background: linear-gradient(45deg, #ff6b6b, #ee5a24);\n            color: white;\n            border: none;\n            padding: 12px 24px;\n            margin: 0 10px;\n            cursor: pointer;\n            border-radius: 25px;\n            font-size: 16px;\n            font-weight: bold;\n            transition: all 0.3s ease;\n            box-shadow: 0 4px 15px rgba(0,0,0,0.2);\n        \x7d\n        .btn:hover \x7b\n            transform: translateY(-2px);\n            box-shadow: 0 6px 20px rgba(0,0,0,0.3);\n        \x7d\n        .btn:active \x7b\n            transform: translateY(0);\n        \x7d\n        .info \x7b\n            background: rgba(255,255,255,0.1);\n            padding: 20px;\n            border-radius: 10px;\n            margin: 20px 0;\n            backdrop-filter: blur(10px);\n        \x7d\n        .info-grid \x7b\n            display: grid;\n            grid-template-columns: repeat(auto-fit, minmax(200px, 1fr));\n            gap: 15px;\n            margin-top: 15px;\n        \x7d\n        .info-item \x7b\n            text-align: center;\n        \x7d\n        .info-label \x7b\n            font-size: 0.9em;\n            opacity: 0.8;\n            margin-bottom: 5px;\n        \x7d\n        .info-value \x7b\n            font-size: 1.2em;\n            font-weight: bold;\n        \x7d\n        .progress-bar \x7b\n            width: 100%;\n            height: 6px;\n            background: rgba(255,255,255,0.2);\n            border-radius: 3px;\n            margin: 20px 0;\n            overflow: hidden;\n        \x7d\n        .progress-fill \x7b\n            height: 100%;\n            background: linear-gradient(90deg, #ff6b6b, #ee5a24);\n            width: 0%;\n            transition: width 0.3s ease;\n        \x7d\n        .scene-info \x7b\n            text-align: center;\n            margin: 15px 0;\n            font-size: 1.1em;\n        \x7d\n        .footer \x7b\n            text-align: center;\n            margin-top: 40px;\n            opacity: 0.7;\n        \x7d\n    </style>\n</head>\n<body>\n    <div class=\"container\">\n        <div class=\"header\">\n            <h1>üé¨ GenXvids</h1>\n            <p>Video Preview - Generated Successfully!</p>\n        </div>\n        \n        <div class=\"info\">\n            <h3>üìä Video Information</h3>\n            <div class=\"info-grid\">\n                <div class=\"info-item\">\n                    <div class=\"info-label\">Duration</div>\n                    <div class=\"info-value\">"
  ++ (pyFloatRepr td)
  ++ "s</div>\n                </div>\n                <div class=\"info-item\">\n                    <div class=\"info-label\">Resolution</div>\n                    <div class=\"info-value\">"
  ++ (toString res.width)
  ++ "√ó"
  ++ (toString res.height)
  ++ "</div>\n                </div>\n                <div class=\"info-item\">\n                    <div class=\"info-label\">Scenes</div>\n                    <div class=\"info-value\">"
  ++ (toString nScenes)
  ++ "</div>\n                </div>\n                <div class=\"info-item\">\n                    <div class=\"info-label\">Frames</div>\n                    <div class=\"info-value\">"
  ++ (toString nFramePaths)
  ++ "</div>\n                </div>\n            </div>\n        </div>\n        \n        <div class=\"video-container\" id=\"videoContainer\">\n"

def htmlTail (nFrameData nFramePaths : ℕ) (td : ℚ) : String :=
  "        </div>\n        \n        <div class=\"progress-bar\">\n            <div class=\"progress-fill\" id=\"progressFill\"></div>\n        </div>\n        \n        <div class=\"scene-info\" id=\"sceneInfo\">Frame 1 of "
  ++ (toString nFrameData)
  ++ "</div>\n        \n        <div class=\"controls\">\n            <button class=\"btn\" onclick=\"previousFrame()\">‚èÆÔ∏è Previous</button>\n            <button class=\"btn\" onclick=\"playPause()\" id=\"playBtn\">‚ñ∂Ô∏è Play</button>\n            <button class=\"btn\" onclick=\"nextFrame()\">‚è≠Ô∏è Next</button>\n        </div>\n        \n        <div class=\"info\">\n            <h3>üí° About This Preview</h3>\n            <p>This is an interactive HTML preview of your generated video. The actual video processing creates individual frames that would normally be compiled into an MP4 file.</p>\n            <p><strong>To generate actual MP4 videos:</strong> Install FFmpeg on your system for full video processing capabilities.</p>\n        </div>\n        \n        <div class=\"footer\">\n            <p>Generated by GenXvids Platform | "
  ++ (toString nFramePaths)
  ++ " frames processed</p>\n        </div>\n    </div>\n\n    <script>\n        let currentFrame = 0;\n        let isPlaying = false;\n        let playInterval;\n        const totalFrames = "
  ++ (toString nFrameData)
  ++ ";\n        const frameDuration = "
  ++ (pyFloatRepr (td / ((max nFrameData 1 : ℕ) : ℚ) * 1000))
  ++ ";  // ms per frame\n        \n        function showFrame(index) \x7b\n            const frames = document.querySelectorAll(\x27.frame\x27);\n            frames.forEach(frame => frame.classList.remove(\x27active\x27));\n            \n            if (frames[index]) \x7b\n                frames[index].classList.add(\x27active\x27);\n            \x7d\n            \n            document.getElementById(\x27sceneInfo\x27).textContent = \x60Frame $\x7bindex + 1\x7d of $\x7btotalFrames\x7d\x60;\n            \n            // Update progress bar\n            const progress = ((index + 1) / totalFrames) * 100;\n            document.getElementById(\x27progressFill\x27).style.width = progress + \x27%\x27;\n        \x7d\n        \n        function nextFrame() \x7b\n            currentFrame = (currentFrame + 1) % totalFrames;\n            showFrame(currentFrame);\n        \x7d\n        \n        function previousFrame() \x7b\n            currentFrame = (currentFrame - 1 + totalFrames) % totalFrames;\n            showFrame(currentFrame);\n        \x7d\n        \n        function playPause() \x7b\n            const playBtn = document.getElementById(\x27playBtn\x27);\n            \n            if (isPlaying) \x7b\n                clearInterval(playInterval);\n                playBtn.textContent = \x27‚ñ∂Ô∏è Play\x27;\n                isPlaying = false;\n            \x7d else \x7b\n                playInterval = setInterval(() => \x7b\n                    nextFrame();\n                \x7d, frameDuration);\n                playBtn.textContent = \x27‚è∏Ô∏è Pause\x27;\n                isPlaying = true;\n            \x7d\n        \x7d\n        \n        // Auto-play on load\n        setTimeout(() => \x7b\n            playPause();\n        \x7d, 1000);\n    </script>\n</body>\n</html>"

/-- One line of the frame-image loop of `_create_html_preview`:
`f'            <img class="frame\x7bactive_class\x7d" src="\x7bframe_data_url\x7d" alt="Frame \x7bi+1\x7d">\n'`,
where `active_class` is `" active"` exactly for the first frame. -/
def htmlImgLine (i : ℕ) (frame_data_url : String) : String :=
  "            <img class=\"frame" ++ (if i = 0 then " active" else "")
    ++ "\" src=\"" ++ frame_data_url ++ "\" alt=\"Frame " ++ toString (i + 1) ++ "\">\n"

/-- The sampling indices `range(0, n, max(1, n // min(10, n)))` used by
`_create_html_preview` to pick at most ten frames (`n` is the number of
frame paths; for `n = 0` the range is empty). -/
def sampleIndices (n : ℕ) : List ℕ :=
  let step := max 1 (n / min 10 n)
  (List.range ((n + step - 1) / step)).map (· * step)

/-- The body of the sampling loop: stop once `max_frames` data URLs are
collected; a frame whose file cannot be read/encoded (`readB64 i = none`)
is skipped with a warning. -/
def build_frame_data (readB64 : ℕ → Option String) (max_frames : ℕ) :
    List ℕ → List String → List String
  | [], acc => acc
  | i :: rest, acc =>
    if max_frames ≤ acc.length then acc
    else
      match readB64 i with
      | some d => build_frame_data readB64 max_frames rest (acc ++ ["data:image/png;base64," ++ d])
      | none => build_frame_data readB64 max_frames rest acc

/-- `frame_data` of `_create_html_preview`: at most `min(10, n)` inline
data URLs sampled evenly from the `n` frame paths. -/
def frame_data (n : ℕ) (readB64 : ℕ → Option String) : List String :=
  build_frame_data readB64 (min 10 n) (sampleIndices n) []

/-- The full document written by `_create_html_preview`: head, one `<img>`
line per sampled frame, tail.  `total_duration` here is
`sum(scene.get("duration", 0) for scene in scenes)` (default 0, unlike the
orchestrator's running total, which defaults to 5). -/
def html_content (scenes : List Scene) (cfg_aspect : Option String)
    (nFramePaths : ℕ) (fd : List String) : String :=
  let res := get_resolution (cfg_aspect.getD "16:9")
  let td := (scenes.map fun sc => sc.duration.getD 0).sum
  htmlHead res td scenes.length nFramePaths
    ++ String.join (fd.enum.map fun p => htmlImgLine p.1 p.2)
    ++ htmlTail fd.length nFramePaths td

/-- Outcome of one FFmpeg invocation attempt in `_create_video_with_ffmpeg`.
Only `ok` (exit code 0 and the output file exists) counts as success; a
timed-out, missing or failing encoder falls through to the next attempt. -/
inductive AttemptOutcome where
  | ok
  | exitedNonzeroOrNoOutput
  | timedOut
  | encoderNotFound
deriving DecidableEq, Repr

/-- `result.returncode == 0 and os.path.exists(output_path)`. -/
def AttemptOutcome.succeeded : AttemptOutcome → Bool
  | ok => true
  | _ => false

/-- The external effects `generate_video` depends on: the outcomes of the
two FFmpeg attempts, whether writing the HTML document succeeds, the size
reported for a native video file, the message of an I/O exception, and the
(abstract, externally produced) base64 encoding of each frame's PNG file. -/
structure EncoderEnv where
  attempt1 : AttemptOutcome
  attempt2 : AttemptOutcome
  html_write_ok : Bool
  video_file_size : ℕ
  io_error_msg : String
  readB64 : ℕ → Option String

/-- The dict returned by `SimpleVideoGenerator.generate_video`, with the
`metadata` sub-dict flattened.  `fileSize` models `os.path.getsize` of the
written artifact as the character count of its content. -/
structure GenResult where
  success : Bool
  output_path : Option String
  error : Option String
  message : Option String
  format : Option String
  fileSize : Option ℕ
  frameCount : Option ℕ
  duration : Option ℚ
deriving DecidableEq, Repr

/-- `SimpleVideoGenerator.generate_video`: compose all scene frames; if no
frames, fail; else try the FFmpeg attempts (first success wins, returning
an mp4 result); on total encoder failure fall back to the HTML preview;
if even that write raises, the outer handler returns `success=False`. -/
def generate_video (scenes : List Scene) (cfg_aspect : Option String)
    (cfg_fps : Option ℚ) (output_path : String) (env : EncoderEnv) : GenResult :=
  let frames := all_frames scenes cfg_aspect cfg_fps
  let td := total_duration_gen scenes
  if frames.isEmpty then
    { success := false, output_path := none, error := some "No frames generated",
      message := none, format := none, fileSize := none,
      frameCount := none, duration := none }
  else if env.attempt1.succeeded || env.attempt2.succeeded then
    { success := true, output_path := some output_path, error := none, message := none,
      format := some "mp4", fileSize := some env.video_file_size,
      frameCount := some frames.length, duration := some td }
  else if env.html_write_ok then
    let html_path := output_path.replace ".mp4" ".html"
    let content := html_content scenes cfg_aspect frames.length
      (frame_data frames.length env.readB64)
    { success := true, output_path := some html_path, error := none,
      message := some "Video generated as HTML preview. Install FFmpeg for MP4 generation.",
      format := some "html", fileSize := some content.length,
      frameCount := some frames.length, duration := some td }
  else
    { success := false, output_path := none, error := some env.io_error_msg,
      message := none, format := none, fileSize := none,
      frameCount := none, duration := none }


/-! ## Concrete fixtures used by witness theorems -/

/-- An element customization supplying nothing. -/
def emptyElementCust : ElementCust :=
  { properties := none, position := none, size := none, animations := none }

/-- A one-scene template holding text elements `"e1"` and `"e2"`, with
only `"e1"` marked customizable. -/
def tplC7 : Config :=
  { duration := some 5, aspect_ratio := none, default_style := none,
    customizable_elements := some ["e1"],
    scenes := some [
      { id := some "s1", type := none, duration := some 5,
        elements := some [
          { id := some "e1", type := some "text", properties := none,
            position := none, size := none, animations := none },
          { id := some "e2", type := some "text", properties := none,
            position := none, size := none, animations := none }],
        transitions := none }] }

/-- A customization referencing an element id that exists nowhere. -/
def custUnknown : Customization :=
  { duration := none, aspect_ratio := none, default_style := none,
    elements := some [("does_not_exist", emptyElementCust)], scenes := none }

/-- A customization referencing element `"e2"`, which exists but is not
marked customizable. -/
def custE2 : Customization :=
  { duration := none, aspect_ratio := none, default_style := none,
    elements := some [("e2", emptyElementCust)], scenes := none }

/-- A contentless animation entry. -/
def animA : Animation := { fields := [] }

/-- A template with one 30-second scene whose single text element has
three animations (the spec's preview scenario). -/
def tplC5 : Config :=
  { duration := some 30, aspect_ratio := none, default_style := none,
    customizable_elements := none,
    scenes := some [
      { id := some "s1", type := none, duration := some 30,
        elements := some [
          { id := some "e1", type := some "text", properties := none,
            position := none, size := none,
            animations := some [animA, animA, animA] }],
        transitions := none }] }

/-- The empty customization request. -/
def emptyCust : Customization :=
  { duration := none, aspect_ratio := none, default_style := none,
    elements := none, scenes := none }

/-- Modelled from the spec: the claim's `round(T × F)` — nearest integer,
halves rounding up (the counterexample input 1.9 is unaffected by the
half-tie convention). -/
def spec_round (q : ℚ) : ℤ := ⌊q + 1/2⌋

/-- A bare scene of the given id and duration, as consumed by the
compositor. -/
def bareScene (i : String) (d : ℚ) : Scene :=
  { id := some i, type := none, duration := some d,
    elements := none, transitions := none }

/-- An encoder environment in which FFmpeg is absent and the HTML write
succeeds. -/
def envNoFFmpeg : EncoderEnv :=
  { attempt1 := AttemptOutcome.encoderNotFound,
    attempt2 := AttemptOutcome.encoderNotFound,
    html_write_ok := true, video_file_size := 0,
    io_error_msg := "disk full", readB64 := fun _ => none }

/-- The two-scene (5s each) template used by the C8 witness. -/
def tplC8 : Config :=
  { duration := some 10, aspect_ratio := none, default_style := none,
    customizable_elements := none,
    scenes := some [bareScene "scene1" 5, bareScene "scene2" 5] }

/-- The C8 witness customization: global duration 40 plus a direct
7-second override for scene `"scene2"`. -/
def custC8 : Customization :=
  { duration := some 40, aspect_ratio := none, default_style := none,
    elements := none,
    scenes := some [("scene2",
      { duration := some 7, type := none, transitions := none })] }

/-- The scene the C8 witness expects in the customized result. -/
def sResC8 : Scene := bareScene "scene2" 7

/-! ## Derived notions used by the theorems -/

/-- The scene-duration view of a config: `scene.get("duration", 0)` for
each scene of `config.get("scenes", [])`, the reading used by
`_adjust_scene_durations` and `_create_html_preview`. -/
def sceneDurations (c : Config) : List ℚ :=
  (c.scenes.getD []).map fun s => s.duration.getD 0

/-! ## Helper lemmas -/

/-- The durations of a scene list after the per-scene scaling step of
`_adjust_scene_durations`, for a fixed scale factor. -/
theorem scaled_scene_durations (ss : List Scene) (f : ℚ) :
    (ss.map fun s =>
        match s.duration with
        | some d => { s with duration := some (d * f) }
        | none => s).map (fun s => s.duration.getD 0)
      = ss.map fun s => s.duration.getD 0 * f := by
  induction ss with
  | nil => rfl
  | cons s rest ih =>
    simp only [List.map_cons, List.cons.injEq]
    refine ⟨?_, ih⟩
    cases hd : s.duration <;> simp [hd]

/-- On a config whose scene durations have a positive sum,
`_adjust_scene_durations` multiplies every scene duration by
`new_total / current_total`. -/
theorem adjust_scene_durations_durations (cfg : Config) (D : ℚ) (ss : List Scene)
    (hss : cfg.scenes = some ss)
    (hpos : 0 < (ss.map fun s => s.duration.getD 0).sum) :
    sceneDurations (adjust_scene_durations cfg D)
      = (ss.map fun s => s.duration.getD 0).map
          (· * (D / (ss.map fun s => s.duration.getD 0).sum)) := by
  obtain ⟨du, ar, st, ce, sc⟩ := cfg
  simp only at hss
  subst hss
  have hne : ss.isEmpty = false := by
    cases ss with
    | nil => simp at hpos
    | cons a l => rfl
  have hnle : ¬ ((ss.map fun s => s.duration.getD 0).sum ≤ 0) := not_le.mpr hpos
  simp only [adjust_scene_durations, hne, Bool.false_eq_true, if_false, hnle,
    sceneDurations, Option.getD_some]
  rw [scaled_scene_durations]
  simp [List.map_map]

/-- Multiplying each entry of a list of rationals by a constant multiplies
the sum by that constant. -/
theorem list_sum_map_mul (l : List ℚ) (r : ℚ) :
    (l.map (· * r)).sum = l.sum * r := by
  induction l with
  | nil => simp
  | cons x rest ih => simp [ih, add_mul]

/-- On a config whose scene durations have a positive sum,
`_adjust_scene_durations` makes the scene durations sum to exactly the new
total. -/
theorem adjust_scene_durations_sum (cfg : Config) (D : ℚ) (ss : List Scene)
    (hss : cfg.scenes = some ss)
    (hpos : 0 < (ss.map fun s => s.duration.getD 0).sum) :
    (sceneDurations (adjust_scene_durations cfg D)).sum = D := by
  rw [adjust_scene_durations_durations cfg D ss hss hpos, list_sum_map_mul]
  field_simp

/-- Convenience: `customize_template` on a duration-only customization is
`_adjust_scene_durations` after recording the new total. -/
theorem customize_template_duration_only (tpl : Config) (D : ℚ) :
    customize_template tpl
      { duration := some D, aspect_ratio := none, default_style := none,
        elements := none, scenes := none }
      = adjust_scene_durations { tpl with duration := some D } D := rfl

/-! ## C3 -/

/-- C3: for a template whose scenes all carry positive durations, a
customization supplying only a new global duration `Dnew > 0` rescales
every scene duration by `Dnew / Dcur`, so the durations sum to exactly
`Dnew` and each scene's share of the total is unchanged. -/
theorem C3_duration_only_rescales_proportionally
    (tpl : Config) (ss : List Scene) (Dnew : ℚ)
    (hss : tpl.scenes = some ss)
    (hne : ss ≠ [])
    (hpos : ∀ s ∈ ss, 0 < s.duration.getD 0)
    (hD : 0 < Dnew) :
    sceneDurations (customize_template tpl
        { duration := some Dnew, aspect_ratio := none, default_style := none,
          elements := none, scenes := none })
      = (sceneDurations tpl).map (· * (Dnew / (sceneDurations tpl).sum))
    ∧ (sceneDurations (customize_template tpl
        { duration := some Dnew, aspect_ratio := none, default_style := none,
          elements := none, scenes := none })).sum = Dnew
    ∧ ∀ i, i < ss.length →
        (sceneDurations (customize_template tpl
            { duration := some Dnew, aspect_ratio := none, default_style := none,
              elements := none, scenes := none })).getD i 0 / Dnew
          = (sceneDurations tpl).getD i 0 / (sceneDurations tpl).sum := by
  have hdurs : sceneDurations tpl = ss.map fun s => s.duration.getD 0 := by
    unfold sceneDurations
    rw [hss]
    rfl
  have hsum : 0 < (ss.map fun s => s.duration.getD 0).sum := by
    apply List.sum_pos
    · intro x hx
      obtain ⟨s, hs, rfl⟩ := List.mem_map.mp hx
      exact hpos s hs
    · simpa using hne
  have hscenes2 : (Config.mk tpl.duration tpl.aspect_ratio tpl.default_style
      tpl.customizable_elements tpl.scenes).scenes = some ss := hss
  rw [customize_template_duration_only]
  have hmap := adjust_scene_durations_durations
    { tpl with duration := some Dnew } Dnew ss hss hsum
  have hsumeq := adjust_scene_durations_sum
    { tpl with duration := some Dnew } Dnew ss hss hsum
  refine ⟨by rw [hmap, hdurs], hsumeq, ?_⟩
  intro i hi
  rw [hmap, hdurs]
  have hi' : i < ((ss.map fun s => s.duration.getD 0)).length := by
    simpa using hi
  rw [List.getD_eq_getElem?_getD, List.getElem?_map,
      List.getD_eq_getElem?_getD (l := ss.map fun s => s.duration.getD 0),
      List.getElem?_eq_getElem hi']
  simp only [Option.map_some, Option.getD_some]
  have hsumne : ((ss.map fun s => s.duration.getD 0)).sum ≠ 0 := ne_of_gt hsum
  field_simp
  ring

/-- Witness for C3 at the spec's own scenario: two scenes of duration 5,
new global duration 20; both scenes end with duration 10 (their halves of
the total are preserved and the durations sum to 20). -/
theorem C3_witness :
    sceneDurations (customize_template
        { duration := some 10, aspect_ratio := none, default_style := none,
          customizable_elements := none,
          scenes := some
            [{ id := some "scene1", type := none, duration := some 5,
               elements := none, transitions := none },
             { id := some "scene2", type := none, duration := some 5,
               elements := none, transitions := none }] }
        { duration := some 20, aspect_ratio := none, default_style := none,
          elements := none, scenes := none })
      = [10, 10] := by
  have h := C3_duration_only_rescales_proportionally
    { duration := some 10, aspect_ratio := none, default_style := none,
      customizable_elements := none,
      scenes := some
        [{ id := some "scene1", type := none, duration := some 5,
           elements := none, transitions := none },
         { id := some "scene2", type := none, duration := some 5,
           elements := none, transitions := none }] }
    [{ id := some "scene1", type := none, duration := some 5,
       elements := none, transitions := none },
     { id := some "scene2", type := none, duration := some 5,
       elements := none, transitions := none }]
    20 rfl (by simp) (by
      intro s hs
      simp only [List.mem_cons, List.not_mem_nil, or_false] at hs
      rcases hs with rfl | rfl <;> norm_num) (by norm_num)
  rw [h.1]
  simp [sceneDurations]
  norm_num

/-! ## C8 -/

/-- In `_customize_scenes`, a scene whose id has an override carrying a
duration ends up with exactly that duration. -/
theorem apply_scene_customization_id (sc : Scene) (c : SceneCust) :
    (apply_scene_customization sc c).id = sc.id := by
  cases hd : c.duration <;> cases ht : c.type <;> cases htr : c.transitions <;>
    simp [apply_scene_customization, hd, ht, htr]

theorem apply_scene_customization_duration (sc : Scene) (c : SceneCust) (d : ℚ)
    (h : c.duration = some d) :
    (apply_scene_customization sc c).duration = some d := by
  cases ht : c.type <;> cases htr : c.transitions <;>
    simp [apply_scene_customization, h, ht, htr]

theorem customize_scenes_sets_duration (cfg : Config) (scs : List (String × SceneCust))
    (sid : String) (scust : SceneCust) (d : ℚ)
    (hlook : scs.lookup sid = some scust)
    (hdur : scust.duration = some d) :
    ∀ s ∈ (customize_scenes cfg scs).scenes.getD [], s.id = some sid → s.duration = some d := by
  intro s hs hid
  obtain ⟨du, ar, st, ce, sc⟩ := cfg
  cases sc with
  | none => simp [customize_scenes] at hs
  | some ss =>
    simp only [customize_scenes, Option.getD_some, List.mem_map] at hs
    obtain ⟨s0, _hs0, rfl⟩ := hs
    obtain ⟨oid, oty, odur, oel, otr⟩ := s0
    cases oid with
    | none => simp at hid
    | some sid' =>
      cases hl : scs.lookup sid' with
      | none =>
        simp only [hl] at hid ⊢
        injection hid with hsid
        subst hsid
        rw [hl] at hlook
        exact absurd hlook (by simp)
      | some c =>
        simp only [hl] at hid ⊢
        rw [apply_scene_customization_id] at hid
        injection hid with hsid
        subst hsid
        rw [hl] at hlook
        injection hlook with hceq
        subst hceq
        exact apply_scene_customization_duration _ _ d hdur

/-- C8: when a customization supplies both a new global duration and a
per-scene duration override, the override value lands on the scene
verbatim — it is applied after, and is untouched by, the proportional
rescale. -/
theorem C8_scene_override_verbatim
    (tpl : Config) (cust : Customization) (scs : List (String × SceneCust))
    (sid : String) (scust : SceneCust) (Dnew d : ℚ)
    (_hglobal : cust.duration = some Dnew)
    (hscs : cust.scenes = some scs)
    (hlook : scs.lookup sid = some scust)
    (hdur : scust.duration = some d) :
    ∀ s ∈ (customize_template tpl cust).scenes.getD [],
      s.id = some sid → s.duration = some d := by
  unfold customize_template apply_scenes
  rw [hscs]
  exact customize_scenes_sets_duration _ scs sid scust d hlook hdur

/-- Witness for C8: global duration 40 plus a direct override of 7 for
scene `"scene2"`; the overridden scene appears in the result with exactly
duration 7 (not 7 rescaled). -/
theorem C8_witness :
    sResC8 ∈ (customize_template tplC8 custC8).scenes.getD []
    ∧ sResC8.duration = some 7 := by
  have hres : (customize_template tplC8 custC8).scenes.getD []
      = [bareScene "scene1" 20, sResC8] := by
    have hb1 : (("scene1" : String) == "scene2") = false := by decide
    have hb2 : (("scene2" : String) == "scene2") = true := by decide
    norm_num [customize_template, apply_global_duration, apply_global_aspect,
      apply_global_style, apply_elements, apply_scenes, adjust_scene_durations,
      customize_scenes, apply_scene_customization, List.lookup, hb1, hb2,
      tplC8, custC8, sResC8, bareScene]
  have hmem : sResC8 ∈ (customize_template tplC8 custC8).scenes.getD [] := by
    rw [hres]
    exact List.mem_cons_of_mem _ (List.mem_cons_self _ _)
  exact ⟨hmem,
    C8_scene_override_verbatim tplC8 custC8
      [("scene2", { duration := some 7, type := none, transitions := none })]
      "scene2" { duration := some 7, type := none, transitions := none } 40 7
      rfl rfl (by simp) rfl sResC8 hmem rfl⟩

/-! ## C4 -/

/-- Every property-bound error is one of the two property messages. -/
theorem mem_property_bound_errors (e : Element) (c : ElementCust) (msg : String) :
    msg ∈ property_bound_errors e c →
    msg = "Font size must be between 8 and 200" ∨ msg = "Opacity must be between 0 and 1" := by
  unfold property_bound_errors
  rcases c.properties with _ | props
  · simp
  · simp only
    split
    · rcases props.lookup "fontSize" with _ | v
      · simp
      · split <;> simp_all
    · split
      · rcases props.lookup "opacity" with _ | v
        · simp
        · split <;> simp_all
      · simp

/-- Every position-bound error is one of the two position messages. -/
theorem mem_position_bound_errors (c : ElementCust) (msg : String) :
    msg ∈ position_bound_errors c →
    msg = "Position x must be between 0 and 100" ∨ msg = "Position y must be between 0 and 100" := by
  unfold position_bound_errors
  rcases c.position with _ | p
  · simp
  · intro h
    rcases List.mem_append.mp h with h | h <;>
      rcases hx : p.x with _ | v <;> rcases hy : p.y with _ | w <;>
        simp only [hx, hy] at h <;> simp at h
    all_goals tauto

/-- Every size-bound error is one of the two size messages. -/
theorem mem_size_bound_errors (c : ElementCust) (msg : String) :
    msg ∈ size_bound_errors c →
    msg = "Size width must be between 1 and 100" ∨ msg = "Size height must be between 1 and 100" := by
  unfold size_bound_errors
  rcases c.size with _ | s
  · simp
  · intro h
    rcases List.mem_append.mp h with h | h <;>
      rcases hx : s.width with _ | v <;> rcases hy : s.height with _ | w <;>
        simp only [hx, hy] at h <;> simp at h
    all_goals tauto

/-- The fontSize check fires exactly outside `[8, 200]` (text elements,
numeric value supplied). -/
theorem fontSize_error_iff (e : Element) (c : ElementCust) (q : ℚ)
    (ht : e.type = some "text")
    (hl : (c.properties.getD []).lookup "fontSize" = some (PVal.num q)) :
    ("Font size must be between 8 and 200" ∈ validate_element_customization e c
      ↔ (q < 8 ∨ 200 < q)) := by
  have h2 : "Font size must be between 8 and 200" ∉ position_bound_errors c := by
    intro h
    rcases mem_position_bound_errors c _ h with h' | h' <;> exact absurd h' (by decide)
  have h3 : "Font size must be between 8 and 200" ∉ size_bound_errors c := by
    intro h
    rcases mem_size_bound_errors c _ h with h' | h' <;> exact absurd h' (by decide)
  have hp : ("Font size must be between 8 and 200" ∈ property_bound_errors e c)
      ↔ (q < 8 ∨ 200 < q) := by
    unfold property_bound_errors
    rcases hcp : c.properties with _ | props
    · rw [hcp] at hl
      simp at hl
    · rw [hcp] at hl
      simp only [Option.getD_some] at hl
      simp only [ht, reduceIte, hl]
      by_cases hq : q < 8 ∨ 200 < q
      · rcases hq with hq | hq <;>
          simp [numOutside, hq, decide_eq_true_eq, gt_iff_lt]
      · push_neg at hq
        simp [numOutside, not_lt.mpr hq.1, not_lt.mpr hq.2]
  simp [validate_element_customization, List.mem_append, h2, h3, hp]

theorem mem_if_singleton {b : Bool} {m m' : String} :
    (m ∈ if b then [m'] else []) ↔ (b ∧ m = m') := by
  cases b <;> simp

theorem numOutside_num (q lo hi : ℚ) :
    numOutside (PVal.num q) lo hi = true ↔ (q < lo ∨ hi < q) := by
  simp [numOutside]

/-- The opacity check fires exactly outside `[0, 1]` (image elements,
numeric value supplied). -/
theorem opacity_error_iff (e : Element) (c : ElementCust) (q : ℚ)
    (ht : e.type = some "image")
    (hl : (c.properties.getD []).lookup "opacity" = some (PVal.num q)) :
    ("Opacity must be between 0 and 1" ∈ validate_element_customization e c
      ↔ (q < 0 ∨ 1 < q)) := by
  have h2 : "Opacity must be between 0 and 1" ∉ position_bound_errors c := by
    intro h
    rcases mem_position_bound_errors c _ h with h' | h' <;> exact absurd h' (by decide)
  have h3 : "Opacity must be between 0 and 1" ∉ size_bound_errors c := by
    intro h
    rcases mem_size_bound_errors c _ h with h' | h' <;> exact absurd h' (by decide)
  have hp : ("Opacity must be between 0 and 1" ∈ property_bound_errors e c)
      ↔ (q < 0 ∨ 1 < q) := by
    unfold property_bound_errors
    rcases hcp : c.properties with _ | props
    · rw [hcp] at hl
      simp at hl
    · rw [hcp] at hl
      simp only [Option.getD_some] at hl
      simp only [ht, reduceIte, hl, mem_if_singleton, numOutside_num]
      simp
  simp [validate_element_customization, List.mem_append, h2, h3, hp]

/-- The position-x check fires exactly outside `[0, 100]` (numeric value
supplied). -/
theorem position_x_error_iff (e : Element) (c : ElementCust) (p : Pos) (q : ℚ)
    (hp : c.position = some p) (hx : p.x = some (PVal.num q)) :
    ("Position x must be between 0 and 100" ∈ validate_element_customization e c
      ↔ (q < 0 ∨ 100 < q)) := by
  have h1 : "Position x must be between 0 and 100" ∉ property_bound_errors e c := by
    intro h
    rcases mem_property_bound_errors e c _ h with h' | h' <;> exact absurd h' (by decide)
  have h3 : "Position x must be between 0 and 100" ∉ size_bound_errors c := by
    intro h
    rcases mem_size_bound_errors c _ h with h' | h' <;> exact absurd h' (by decide)
  have hpos : ("Position x must be between 0 and 100" ∈ position_bound_errors c)
      ↔ (q < 0 ∨ 100 < q) := by
    unfold position_bound_errors
    simp only [hp, hx]
    have hy : ("Position x must be between 0 and 100"
        ∈ match p.y with
          | none => ([] : List String)
          | some v => if numOutside v 0 100 then ["Position y must be between 0 and 100"] else [])
        ↔ False := by
      rcases p.y with _ | w
      · simp
      · simp only [mem_if_singleton]
        simp
    simp only [List.mem_append, hy, or_false, mem_if_singleton, numOutside_num]
    simp
  simp [validate_element_customization, List.mem_append, h1, h3, hpos]

/-- The position-y check fires exactly outside `[0, 100]` (numeric value
supplied). -/
theorem position_y_error_iff (e : Element) (c : ElementCust) (p : Pos) (q : ℚ)
    (hp : c.position = some p) (hy : p.y = some (PVal.num q)) :
    ("Position y must be between 0 and 100" ∈ validate_element_customization e c
      ↔ (q < 0 ∨ 100 < q)) := by
  have h1 : "Position y must be between 0 and 100" ∉ property_bound_errors e c := by
    intro h
    rcases mem_property_bound_errors e c _ h with h' | h' <;> exact absurd h' (by decide)
  have h3 : "Position y must be between 0 and 100" ∉ size_bound_errors c := by
    intro h
    rcases mem_size_bound_errors c _ h with h' | h' <;> exact absurd h' (by decide)
  have hpos : ("Position y must be between 0 and 100" ∈ position_bound_errors c)
      ↔ (q < 0 ∨ 100 < q) := by
    unfold position_bound_errors
    simp only [hp, hy]
    have hx : ("Position y must be between 0 and 100"
        ∈ match p.x with
          | none => ([] : List String)
          | some v => if numOutside v 0 100 then ["Position x must be between 0 and 100"] else [])
        ↔ False := by
      rcases p.x with _ | w
      · simp
      · simp only [mem_if_singleton]
        simp
    simp only [List.mem_append, hx, false_or, mem_if_singleton, numOutside_num]
    simp
  simp [validate_element_customization, List.mem_append, h1, h3, hpos]

/-- The size-width check fires exactly outside `[1, 100]` (numeric value
supplied) — note the code's lower bound is 1, not "just above 0". -/
theorem size_width_error_iff (e : Element) (c : ElementCust) (s : Size) (q : ℚ)
    (hs : c.size = some s) (hw : s.width = some (PVal.num q)) :
    ("Size width must be between 1 and 100" ∈ validate_element_customization e c
      ↔ (q < 1 ∨ 100 < q)) := by
  have h1 : "Size width must be between 1 and 100" ∉ property_bound_errors e c := by
    intro h
    rcases mem_property_bound_errors e c _ h with h' | h' <;> exact absurd h' (by decide)
  have h2 : "Size width must be between 1 and 100" ∉ position_bound_errors c := by
    intro h
    rcases mem_position_bound_errors c _ h with h' | h' <;> exact absurd h' (by decide)
  have hsz : ("Size width must be between 1 and 100" ∈ size_bound_errors c)
      ↔ (q < 1 ∨ 100 < q) := by
    unfold size_bound_errors
    simp only [hs, hw]
    have hh : ("Size width must be between 1 and 100"
        ∈ match s.height with
          | none => ([] : List String)
          | some v => if numOutside v 1 100 then ["Size height must be between 1 and 100"] else [])
        ↔ False := by
      rcases s.height with _ | w
      · simp
      · simp only [mem_if_singleton]
        simp
    simp only [List.mem_append, hh, or_false, mem_if_singleton, numOutside_num]
    simp
  simp [validate_element_customization, List.mem_append, h1, h2, hsz]

/-- The size-height check fires exactly outside `[1, 100]` (numeric value
supplied). -/
theorem size_height_error_iff (e : Element) (c : ElementCust) (s : Size) (q : ℚ)
    (hs : c.size = some s) (hh : s.height = some (PVal.num q)) :
    ("Size height must be between 1 and 100" ∈ validate_element_customization e c
      ↔ (q < 1 ∨ 100 < q)) := by
  have h1 : "Size height must be between 1 and 100" ∉ property_bound_errors e c := by
    intro h
    rcases mem_property_bound_errors e c _ h with h' | h' <;> exact absurd h' (by decide)
  have h2 : "Size height must be between 1 and 100" ∉ position_bound_errors c := by
    intro h
    rcases mem_position_bound_errors c _ h with h' | h' <;> exact absurd h' (by decide)
  have hsz : ("Size height must be between 1 and 100" ∈ size_bound_errors c)
      ↔ (q < 1 ∨ 100 < q) := by
    unfold size_bound_errors
    simp only [hs, hh]
    have hw : ("Size height must be between 1 and 100"
        ∈ match s.width with
          | none => ([] : List String)
          | some v => if numOutside v 1 100 then ["Size width must be between 1 and 100"] else [])
        ↔ False := by
      rcases s.width with _ | w
      · simp
      · simp only [mem_if_singleton]
        simp
    simp only [List.mem_append, hw, false_or, mem_if_singleton, numOutside_num]
    simp
  simp [validate_element_customization, List.mem_append, h1, h2, hsz]

/-- C4 (amended): element-customization validation reports a bound error
exactly when a supplied numeric value lies outside its range — text
fontSize outside `[8, 200]`, image opacity outside `[0, 1]`, position x/y
outside `[0, 100]`, and size width/height outside `[1, 100]` (the code
rejects `value < 1 or value > 100`, so the size lower bound is 1, not
"strictly above 0" as the claim stated). -/
theorem C4_element_bound_errors_iff (e : Element) (c : ElementCust) :
    (∀ q : ℚ, e.type = some "text" →
       (c.properties.getD []).lookup "fontSize" = some (PVal.num q) →
       ("Font size must be between 8 and 200" ∈ validate_element_customization e c
         ↔ (q < 8 ∨ 200 < q)))
  ∧ (∀ q : ℚ, e.type = some "image" →
       (c.properties.getD []).lookup "opacity" = some (PVal.num q) →
       ("Opacity must be between 0 and 1" ∈ validate_element_customization e c
         ↔ (q < 0 ∨ 1 < q)))
  ∧ (∀ (p : Pos) (q : ℚ), c.position = some p → p.x = some (PVal.num q) →
       ("Position x must be between 0 and 100" ∈ validate_element_customization e c
         ↔ (q < 0 ∨ 100 < q)))
  ∧ (∀ (p : Pos) (q : ℚ), c.position = some p → p.y = some (PVal.num q) →
       ("Position y must be between 0 and 100" ∈ validate_element_customization e c
         ↔ (q < 0 ∨ 100 < q)))
  ∧ (∀ (s : Size) (q : ℚ), c.size = some s → s.width = some (PVal.num q) →
       ("Size width must be between 1 and 100" ∈ validate_element_customization e c
         ↔ (q < 1 ∨ 100 < q)))
  ∧ (∀ (s : Size) (q : ℚ), c.size = some s → s.height = some (PVal.num q) →
       ("Size height must be between 1 and 100" ∈ validate_element_customization e c
         ↔ (q < 1 ∨ 100 < q))) :=
  ⟨fun q ht hl => fontSize_error_iff e c q ht hl,
   fun q ht hl => opacity_error_iff e c q ht hl,
   fun p q hp hx => position_x_error_iff e c p q hp hx,
   fun p q hp hy => position_y_error_iff e c p q hp hy,
   fun s q hs hw => size_width_error_iff e c s q hs hw,
   fun s q hs hh => size_height_error_iff e c s q hs hh⟩

/-- C4 counterexample: a size width of 1/2 lies inside the claimed range
`(0, 100]`, yet the code reports the size error — the code's lower bound
is 1. -/
theorem C4_counterexample :
    (0 < (1 : ℚ)/2 ∧ (1 : ℚ)/2 ≤ 100)
    ∧ validate_element_customization
        { id := some "e1", type := some "text", properties := none,
          position := none, size := none, animations := none }
        { properties := none, position := none,
          size := some { width := some (PVal.num (1/2)), height := none },
          animations := none }
        = ["Size width must be between 1 and 100"] := by
  refine ⟨by norm_num, ?_⟩
  norm_num [validate_element_customization, property_bound_errors,
    position_bound_errors, size_bound_errors, numOutside]

/-- Witness for C4: the spec's own scenario — a text element customized
with fontSize 300 receives the font-size error. -/
theorem C4_witness :
    "Font size must be between 8 and 200" ∈ validate_element_customization
      { id := some "e1", type := some "text", properties := none,
        position := none, size := none, animations := none }
      { properties := some [("fontSize", PVal.num 300)], position := none,
        size := none, animations := none } := by
  have h := (C4_element_bound_errors_iff
    { id := some "e1", type := some "text", properties := none,
      position := none, size := none, animations := none }
    { properties := some [("fontSize", PVal.num 300)], position := none,
      size := none, animations := none }).1 300 rfl (by simp)
  exact h.mpr (by norm_num)

/-! ## C7 -/

/-- An entry whose id is not found in the template contributes its
not-found error to the loop's error list. -/
theorem loop_not_found_mem (t : Config) (ids : List String)
    (ecs : List (String × ElementCust)) (eid : String) (ec : ElementCust)
    (hmem : (eid, ec) ∈ ecs) (hnone : find_element_by_id t eid = none) :
    elemNotFoundMsg eid ∈ (validateElementsLoop t ids ecs).1 := by
  induction ecs with
  | nil => simp at hmem
  | cons hd rest ih =>
    obtain ⟨hid, hec⟩ := hd
    rcases List.mem_cons.mp hmem with heq | hrest
    · injection heq with h1 h2
      subst h1
      subst h2
      simp only [validateElementsLoop, hnone]
      exact List.mem_cons_self _ _
    · simp only [validateElementsLoop]
      cases hf : find_element_by_id t hid <;>
        simp [List.mem_cons, List.mem_append, ih hrest]

/-- If every entry is found and validates cleanly, the loop produces no
errors. -/
theorem loop_errors_nil (t : Config) (ids : List String)
    (ecs : List (String × ElementCust))
    (hall : ∀ p ∈ ecs, foundAndClean t p = true) :
    (validateElementsLoop t ids ecs).1 = [] := by
  induction ecs with
  | nil => rfl
  | cons hd rest ih =>
    obtain ⟨hid, hec⟩ := hd
    have hhd := hall (hid, hec) (List.mem_cons_self _ _)
    have hrest := fun p hp => hall p (List.mem_cons_of_mem _ hp)
    unfold foundAndClean at hhd
    cases hf : find_element_by_id t hid with
    | none => rw [hf] at hhd; simp at hhd
    | some e =>
      rw [hf] at hhd
      simp only at hhd
      rw [List.isEmpty_iff] at hhd
      simp only [validateElementsLoop, hf, hhd, List.nil_append]
      exact ih hrest

/-- An entry whose id is not in `customizable_elements` contributes its
warning to the loop's warning list. -/
theorem loop_warning_mem (t : Config) (ids : List String)
    (ecs : List (String × ElementCust)) (eid : String) (ec : ElementCust)
    (hmem : (eid, ec) ∈ ecs) (hnc : ¬ ids.contains eid) :
    elemNotCustomizableMsg eid ∈ (validateElementsLoop t ids ecs).2 := by
  induction ecs with
  | nil => simp at hmem
  | cons hd rest ih =>
    obtain ⟨hid, hec⟩ := hd
    rcases List.mem_cons.mp hmem with heq | hrest
    · injection heq with h1 h2
      subst h1
      subst h2
      simp only [validateElementsLoop, if_neg hnc]
      cases hf : find_element_by_id t eid <;> simp
    · simp only [validateElementsLoop]
      cases hf : find_element_by_id t hid <;>
        (split <;> simp [List.mem_append, ih hrest])

/-- A list with a member is not empty (`isEmpty = false`). -/
theorem isEmpty_false_of_mem {α : Type} {l : List α} {a : α} (h : a ∈ l) :
    l.isEmpty = false := by
  cases l with
  | nil => simp at h
  | cons x xs => rfl

/-- C7: an element id in the `elements` override map that exists nowhere
in the template makes validation fail with an error containing
"not found"; an id that exists but is missing from
`customizable_elements` only produces a warning, and (absent any other
violation) the customization stays valid. -/
theorem C7_unknown_id_error_uncustomizable_warning
    (t : Config) (c : Customization) (ecs : List (String × ElementCust))
    (hel : c.elements = some ecs) :
    (∀ eid ec, (eid, ec) ∈ ecs → find_element_by_id t eid = none →
       (validate_customizations t c).is_valid = false
       ∧ elemNotFoundMsg eid ∈ (validate_customizations t c).errors
       ∧ ∃ a b, elemNotFoundMsg eid = a ++ "not found" ++ b)
  ∧ ((∀ p ∈ ecs, foundAndClean t p = true) →
     0 < c.duration.getD 1 →
     validRatios.contains (c.aspect_ratio.getD "16:9") = true →
       (validate_customizations t c).is_valid = true
       ∧ ∀ eid ec, (eid, ec) ∈ ecs →
           ¬ (t.customizable_elements.getD []).contains eid →
           elemNotCustomizableMsg eid ∈ (validate_customizations t c).warnings) := by
  constructor
  · intro eid ec hmem hnone
    have hin : elemNotFoundMsg eid
        ∈ (validateElementsLoop t (t.customizable_elements.getD []) ecs).1 :=
      loop_not_found_mem t _ ecs eid ec hmem hnone
    have herr : elemNotFoundMsg eid ∈ (validate_customizations t c).errors := by
      simp only [validate_customizations, hel, List.mem_append]
      exact Or.inl (Or.inl hin)
    have hproj : (validate_customizations t c).is_valid
        = ((validate_customizations t c).errors).isEmpty := rfl
    refine ⟨?_, herr, ?_⟩
    · rw [hproj]
      exact isEmpty_false_of_mem herr
    · refine ⟨"Element \x27" ++ eid ++ "\x27 ", " in template", ?_⟩
      unfold elemNotFoundMsg
      have hsplit : ("\x27 not found in template" : String)
          = "\x27 " ++ "not found" ++ " in template" := by decide
      rw [hsplit]
      simp [String.append_assoc]
  · intro hall hdur hratio
    have h1 : (validateElementsLoop t (t.customizable_elements.getD []) ecs).1 = [] :=
      loop_errors_nil t _ ecs hall
    have h2 : (match c.duration with
        | none => ([] : List String)
        | some d => if d ≤ 0 then ["Duration must be a positive number"] else []) = [] := by
      cases hd : c.duration with
      | none => rfl
      | some d =>
        rw [hd] at hdur
        simp only [Option.getD_some] at hdur
        simp [not_le.mpr hdur]
    have h3 : (match c.aspect_ratio with
        | none => ([] : List String)
        | some a => if validRatios.contains a then [] else [invalidRatioMsg]) = [] := by
      cases ha : c.aspect_ratio with
      | none => rfl
      | some a =>
        rw [ha] at hratio
        simp only [Option.getD_some] at hratio
        dsimp only
        rw [if_pos hratio]
    constructor
    · have hproj : (validate_customizations t c).is_valid
          = ((validate_customizations t c).errors).isEmpty := rfl
      have herrs : (validate_customizations t c).errors = [] := by
        simp only [validate_customizations, hel]
        rw [h1, h2, h3]
        rfl
      rw [hproj, herrs]
      rfl
    · intro eid ec hmem hnc
      have hw := loop_warning_mem t (t.customizable_elements.getD []) ecs eid ec hmem hnc
      simp only [validate_customizations, hel]
      exact hw

/-- Witness for C7: part one is the spec scenario (referencing
`"does_not_exist"` fails with a not-found error); part two shows that
referencing existing-but-not-customizable `"e2"` warns without
invalidating. -/
theorem C7_witness :
    ((validate_customizations tplC7 custUnknown).is_valid = false
      ∧ elemNotFoundMsg "does_not_exist" ∈ (validate_customizations tplC7 custUnknown).errors
      ∧ ∃ a b, elemNotFoundMsg "does_not_exist" = a ++ "not found" ++ b)
    ∧ ((validate_customizations tplC7 custE2).is_valid = true
      ∧ elemNotCustomizableMsg "e2" ∈ (validate_customizations tplC7 custE2).warnings) := by
  constructor
  · exact (C7_unknown_id_error_uncustomizable_warning tplC7 custUnknown
      [("does_not_exist", emptyElementCust)] rfl).1
      "does_not_exist" emptyElementCust (by simp) (by rfl)
  · have h := (C7_unknown_id_error_uncustomizable_warning tplC7 custE2
      [("e2", emptyElementCust)] rfl).2
      (by decide) (by simp [custE2]) (by decide)
    exact ⟨h.1, h.2 "e2" emptyElementCust (by simp) (by decide)⟩

/-! ## C5 -/

/-- The animation-truncation pass leaves every scene duration unchanged. -/
theorem truncate_animations_durations (cfg : Config) :
    sceneDurations (truncate_animations cfg) = sceneDurations cfg := by
  obtain ⟨du, ar, st, ce, sc⟩ := cfg
  cases sc with
  | none => rfl
  | some ss =>
    simp only [truncate_animations, sceneDurations, Option.getD_some, List.map_map]
    induction ss with
    | nil => rfl
    | cons s rest ih =>
      simp only [List.map_cons, List.cons.injEq, Function.comp_apply]
      refine ⟨?_, by simpa using ih⟩
      cases he : s.elements <;> simp [he]

/-- After the animation-truncation pass, every element carries at most
one animation. -/
theorem truncate_animations_bound (cfg : Config) :
    ∀ sc ∈ (truncate_animations cfg).scenes.getD [],
      ∀ e ∈ sc.elements.getD [], (e.animations.getD []).length ≤ 1 := by
  intro sc hsc e he
  obtain ⟨du, ar, st, ce, scs⟩ := cfg
  cases scs with
  | none => simp [truncate_animations] at hsc
  | some ss =>
    simp only [truncate_animations, Option.getD_some, List.mem_map] at hsc
    obtain ⟨sc0, _hsc0, rfl⟩ := hsc
    cases hel : sc0.elements with
    | none => simp [hel] at he
    | some es =>
      simp only [hel, Option.getD_some, List.mem_map] at he
      obtain ⟨e0, _he0, rfl⟩ := he
      cases ha : e0.animations with
      | none => simp [ha]
      | some l =>
        simp only [ha, Option.getD_some, List.length_take]
        exact min_le_left 1 l.length

/-- C5: the preview variant truncates every element's animation list to
at most one entry, and whenever the merged configuration's recorded total
duration exceeds 10 seconds (and its scene durations have a positive
sum, as the data model's positive-duration invariant guarantees), the
preview's scene durations sum to exactly 10 seconds. -/
theorem C5_preview_bounded (tpl : Config) (cust : Customization) :
    (∀ sc ∈ (generate_preview_config tpl cust).scenes.getD [],
       ∀ e ∈ sc.elements.getD [], (e.animations.getD []).length ≤ 1)
  ∧ (∀ ms, (customize_template tpl cust).scenes = some ms →
       0 < (ms.map fun s => s.duration.getD 0).sum →
       10 < (customize_template tpl cust).duration.getD 0 →
       (sceneDurations (generate_preview_config tpl cust)).sum = 10) := by
  have hdef : generate_preview_config tpl cust
      = truncate_animations
          (if (customize_template tpl cust).duration.getD 0 > 10 then
            adjust_scene_durations
              { customize_template tpl cust with duration := some 10 } 10
          else customize_template tpl cust) := rfl
  constructor
  · intro sc hsc e he
    rw [hdef] at hsc
    exact truncate_animations_bound _ sc hsc e he
  · intro ms hms hsum hgt
    rw [hdef, if_pos hgt, truncate_animations_durations]
    exact adjust_scene_durations_sum _ 10 ms hms hsum

/-- Witness for C5 at the spec's scenario: previewing a 30-second
template whose element has three animations yields a preview whose scene
durations sum to 10 and whose elements each keep at most one animation. -/
theorem C5_witness :
    (∀ sc ∈ (generate_preview_config tplC5 emptyCust).scenes.getD [],
       ∀ e ∈ sc.elements.getD [], (e.animations.getD []).length ≤ 1)
    ∧ (sceneDurations (generate_preview_config tplC5 emptyCust)).sum = 10 :=
  ⟨(C5_preview_bounded tplC5 emptyCust).1,
   (C5_preview_bounded tplC5 emptyCust).2
     ((tplC5.scenes).getD []) rfl
     (by simp [tplC5])
     (by
       have h30 : (customize_template tplC5 emptyCust).duration = some 30 := rfl
       rw [h30]
       norm_num)⟩

/-! ## C1 -/

/-- C1 (amended): the compositor generates exactly `int(T * F)` frames
per scene — Python truncation toward zero, not rounding — and the total
frame count is the sum of `int(T_i * F)` over the scenes in order. -/
theorem C1_frame_count_truncation (scenes : List Scene)
    (cfg_aspect : Option String) (cfg_fps : Option ℚ) :
    (all_frames scenes cfg_aspect cfg_fps).length
      = (scenes.map fun sc => frame_count (sc.duration.getD 5) (cfg_fps.getD 30)).sum
    ∧ ∀ (sc : Scene) (res : Resolution) (fps : ℚ),
        (generate_scene_frames sc res fps).length
          = frame_count (sc.duration.getD 5) fps := by
  have hlen : ∀ (sc : Scene) (res : Resolution) (fps : ℚ),
      (generate_scene_frames sc res fps).length = frame_count (sc.duration.getD 5) fps := by
    intro sc res fps
    unfold generate_scene_frames
    rw [List.length_map, List.length_range]
  refine ⟨?_, hlen⟩
  simp only [all_frames]
  rw [List.length_flatMap]
  apply congrArg List.sum
  apply List.map_congr_left
  intro sc _
  exact hlen sc _ _

/-- C1 counterexample: one scene of duration 1.9 at fps 1 yields exactly
1 frame (`int(1.9) = 1`), although the claimed `round(1.9 × 1)` is 2. -/
theorem C1_counterexample :
    (all_frames [bareScene "s1" (19/10)] none (some 1)).length = 1
    ∧ spec_round ((19/10 : ℚ) * 1) = 2 := by
  have hfc : frame_count ((19:ℚ)/10) 1 = 1 := by
    unfold frame_count pyInt
    rw [if_pos (by norm_num)]
    norm_num
  constructor
  · simp [all_frames, generate_scene_frames, bareScene, hfc]
  · unfold spec_round
    norm_num

/-! ## C2 -/

/-- C2 (code bug): the frame file name uses the per-scene counter
`len(frames)`, which restarts at 0 for every scene, so a render of two
one-second scenes at 1 fps writes both of its frames to
`frame_000000.png` — the second scene overwrites the first, and the
collected frame list repeats the same path instead of carrying a global
monotonic index. -/
theorem C2_frame_name_collision :
    (all_frames [bareScene "s1" 1, bareScene "s2" 1] none (some 1)).map Frame.path
      = ["frame_000000.png", "frame_000000.png"] := by
  have hfc : frame_count (1 : ℚ) 1 = 1 := by
    unfold frame_count pyInt
    rw [if_pos (by norm_num)]
    norm_num
  have h1 : (1 : ℚ) * 1 = 1 * 1 := rfl
  simp only [all_frames, bareScene, Option.getD_some, List.flatMap_cons,
    List.flatMap_nil, List.append_nil, generate_scene_frames, hfc]
  decide

/-! ## C10 -/

/-- C10: a missing aspect ratio, or any string outside the four-entry
resolution table, silently falls back to the 16:9 entry, so every frame
of the render is rasterized at 1280×720. -/
theorem C10_unknown_aspect_fallback (scenes : List Scene)
    (cfg_aspect : Option String) (cfg_fps : Option ℚ)
    (h : cfg_aspect = none ∨ ∃ r, cfg_aspect = some r ∧ r ∉ validRatios) :
    get_resolution (cfg_aspect.getD "16:9") = ⟨1280, 720⟩
    ∧ ∀ fr ∈ all_frames scenes cfg_aspect cfg_fps,
        fr.width = 1280 ∧ fr.height = 720 := by
  have hres : get_resolution (cfg_aspect.getD "16:9") = ⟨1280, 720⟩ := by
    rcases h with rfl | ⟨r, rfl, hr⟩
    · rfl
    · simp only [Option.getD_some]
      unfold get_resolution
      simp only [validRatios, List.mem_cons, List.not_mem_nil, or_false, not_or] at hr
      obtain ⟨hr1, hr2, hr3, hr4⟩ := hr
      rw [if_neg hr1, if_neg hr2, if_neg hr3, if_neg hr4]
  refine ⟨hres, ?_⟩
  intro fr hfr
  simp only [all_frames, hres, List.mem_flatMap] at hfr
  obtain ⟨sc, _hsc, hmem⟩ := hfr
  simp only [generate_scene_frames, List.mem_map] at hmem
  obtain ⟨i, _hi, rfl⟩ := hmem
  exact ⟨rfl, rfl⟩

/-- Witness for C10: the unknown ratio `"4:3"` renders a one-scene video
at 1280×720. -/
theorem C10_witness :
    get_resolution ((some "4:3" : Option String).getD "16:9") = ⟨1280, 720⟩
    ∧ ∀ fr ∈ all_frames [bareScene "s1" 1] (some "4:3") (some 1),
        fr.width = 1280 ∧ fr.height = 720 :=
  C10_unknown_aspect_fallback [bareScene "s1" 1] (some "4:3") (some 1)
    (Or.inr ⟨"4:3", rfl, by decide⟩)

/-! ## C6 -/

/-- A concatenation whose left part has positive length has positive
length. -/
theorem length_append_pos_left (s t : String) (h : 0 < s.length) :
    0 < (s ++ t).length := by
  rw [String.length_append]
  exact Nat.lt_of_lt_of_le h (Nat.le_add_right _ _)

set_option maxRecDepth 8192 in
/-- The degraded HTML document is never empty: it always contains the
fixed head markup. -/
theorem html_content_length_pos (scenes : List Scene) (cfg_aspect : Option String)
    (nFramePaths : ℕ) (fd : List String) :
    0 < (html_content scenes cfg_aspect nFramePaths fd).length := by
  unfold html_content
  apply length_append_pos_left
  apply length_append_pos_left
  unfold htmlHead
  repeat apply length_append_pos_left
  decide

/-- C6: when frames exist and both FFmpeg attempts fail, the render still
succeeds whenever the degraded HTML document can be written — returning
`success=true`, the degraded `"html"` format, the degradation message,
and an output path holding the (non-empty) document; the result is
`success=false` precisely when that final write fails. -/
theorem C6_degraded_fallback (scenes : List Scene) (cfg_aspect : Option String)
    (cfg_fps : Option ℚ) (output_path : String) (env : EncoderEnv)
    (hframes : (all_frames scenes cfg_aspect cfg_fps).isEmpty = false)
    (h1 : env.attempt1.succeeded = false)
    (h2 : env.attempt2.succeeded = false) :
    (env.html_write_ok = true →
      (generate_video scenes cfg_aspect cfg_fps output_path env).success = true
      ∧ (generate_video scenes cfg_aspect cfg_fps output_path env).format = some "html"
      ∧ (generate_video scenes cfg_aspect cfg_fps output_path env).message
          = some "Video generated as HTML preview. Install FFmpeg for MP4 generation."
      ∧ (generate_video scenes cfg_aspect cfg_fps output_path env).output_path
          = some (output_path.replace ".mp4" ".html")
      ∧ ∃ n, (generate_video scenes cfg_aspect cfg_fps output_path env).fileSize = some n
          ∧ 0 < n)
    ∧ ((generate_video scenes cfg_aspect cfg_fps output_path env).success = false
        ↔ env.html_write_ok = false) := by
  simp only [generate_video, hframes, Bool.false_eq_true, if_false, h1, h2,
    Bool.or_self]
  constructor
  · intro hw
    rw [if_pos hw]
    exact ⟨rfl, rfl, rfl, rfl,
      ⟨_, rfl, html_content_length_pos scenes cfg_aspect _ _⟩⟩
  · cases hw : env.html_write_ok with
    | true => simp
    | false => simp

/-- Witness for C6: one one-second scene at 1 fps, FFmpeg missing, HTML
write succeeding — the render succeeds in degraded form. -/
theorem C6_witness :
    ((envNoFFmpeg.html_write_ok = true →
      (generate_video [bareScene "s1" 1] none (some 1) "/out/video.mp4" envNoFFmpeg).success = true
      ∧ (generate_video [bareScene "s1" 1] none (some 1) "/out/video.mp4" envNoFFmpeg).format = some "html"
      ∧ (generate_video [bareScene "s1" 1] none (some 1) "/out/video.mp4" envNoFFmpeg).message
          = some "Video generated as HTML preview. Install FFmpeg for MP4 generation."
      ∧ (generate_video [bareScene "s1" 1] none (some 1) "/out/video.mp4" envNoFFmpeg).output_path
          = some ("/out/video.mp4".replace ".mp4" ".html")
      ∧ ∃ n, (generate_video [bareScene "s1" 1] none (some 1) "/out/video.mp4" envNoFFmpeg).fileSize = some n
          ∧ 0 < n)
    ∧ ((generate_video [bareScene "s1" 1] none (some 1) "/out/video.mp4" envNoFFmpeg).success = false
        ↔ envNoFFmpeg.html_write_ok = false)) :=
  C6_degraded_fallback [bareScene "s1" 1] none (some 1) "/out/video.mp4" envNoFFmpeg
    (by
      have hfc : frame_count (1 : ℚ) 1 = 1 := by
        unfold frame_count pyInt
        rw [if_pos (by norm_num)]
        norm_num
      simp [all_frames, generate_scene_frames, bareScene, hfc])
    rfl rfl

end GenXvids
